import Mathlib

/-!
Shallow embedding of the spreadsheet component (`Spreadsheet` in the
repository's grid file): cell addressing, the per-sheet sparse cell store,
the selection/edit lifecycle, sheet collection operations, and the
pointer-drag resize protocol.  JavaScript objects used as string-keyed maps
are modelled as association lists whose lookup takes the first matching
entry; object-spread updates are modelled by `insertA`, which shadows the
old entry.  JS string truthiness (the empty string is falsy) is modelled
explicitly where the source relies on it.
-/

namespace Excel

/-- Association-list lookup: first entry whose key matches. -/
def lookupA {α β : Type} [DecidableEq α] : List (α × β) → α → Option β
  | [], _ => none
  | (k, v) :: rest, k' => if k' = k then some v else lookupA rest k'

/-- Object-spread update `\x7b ...m, [k]: v \x7d`: the new binding shadows any
old one; we additionally drop the shadowed entry so that the list's entries
are exactly the live bindings. -/
def insertA {α β : Type} [DecidableEq α] (m : List (α × β)) (k : α) (v : β) : List (α × β) :=
  (k, v) :: m.filter (fun p => decide (p.1 ≠ k))

/-- Object-spread merge `\x7b ...old, ...new \x7d`: every binding of `new`
overrides the binding of `old` at the same key. -/
def mergeA {α β : Type} [DecidableEq α] (old new : List (α × β)) : List (α × β) :=
  new.foldl (fun acc p => insertA acc p.1 p.2) old

/-- `const COLUMNS = Array.from(\x7blength: 26\x7d, (_, i) => String.fromCharCode(65 + i))` -/
def COLUMNS : List String := (List.range 26).map (fun i => (Char.ofNat (65 + i)).toString)

def ROWS : Nat := 50

def DEFAULT_COLUMN_WIDTH : Int := 96

def DEFAULT_ROW_HEIGHT : Int := 24

def MIN_COLUMN_WIDTH : Int := 20

def MIN_ROW_HEIGHT : Int := 15

/-- `interface Sheet`: id, name, sparse cell data, optional per-column width
and per-row height overrides (an absent optional map is modelled as `[]`,
which behaves identically under lookup and spread-merge). -/
structure Sheet where
  id : String
  name : String
  data : List (String × String)
  columnWidths : List (String × Int)
  rowHeights : List (Nat × Int)
deriving DecidableEq, Repr

/-- Fallback sheet for partial JS accesses (`sheets[0]` on an empty array,
`newSheets[0].id` after filtering everything away) that would throw at
runtime; unreachable along the flows the theorems describe. -/
def emptySheet : Sheet := { id := "", name := "", data := [], columnWidths := [], rowHeights := [] }

inductive ResizeType where
  | column
  | row
deriving DecidableEq, Repr

/-- The component's `useState` fields that the core logic reads and writes.
`resizingIndex` carries a column label (`Sum.inl`) or a row index
(`Sum.inr`), mirroring the source's `number | string | null` union. -/
structure GridState where
  sheets : List Sheet
  activeSheetId : String
  selectedCell : Option String
  editingCell : Option String
  cellValue : String
  isResizing : Bool
  resizingType : Option ResizeType
  resizingIndex : Option (String ⊕ Nat)
  resizeStartPos : Int
  resizeStartSize : Int
deriving DecidableEq, Repr

/-- Initial state: one sheet `\x7b id: '1', name: 'Sheet1', data: \x7b\x7d \x7d`,
active sheet `'1'`, nothing selected, no drag. -/
def initialState : GridState :=
  { sheets := [{ id := "1", name := "Sheet1", data := [], columnWidths := [], rowHeights := [] }]
    activeSheetId := "1"
    selectedCell := none
    editingCell := none
    cellValue := ""
    isResizing := false
    resizingType := none
    resizingIndex := none
    resizeStartPos := 0
    resizeStartSize := 0 }

/-- `sheets.find(s => s.id === activeSheetId) || sheets[0]` -/
def activeSheet (st : GridState) : Sheet :=
  match st.sheets.find? (fun s => s.id == st.activeSheetId) with
  | some s => s
  | none => st.sheets.headD emptySheet

/-- JS `x || d` on a number: `0` (and only `0`, among stored sizes) is falsy. -/
def jsNumOr (o : Option Int) (d : Int) : Int :=
  match o with
  | some w => if w = 0 then d else w
  | none => d

/-- `getColumnWidth`: override in the active sheet, else the default width. -/
def getColumnWidth (st : GridState) (col : String) : Int :=
  jsNumOr (lookupA (activeSheet st).columnWidths col) DEFAULT_COLUMN_WIDTH

/-- `getRowHeight`: override in the active sheet, else the default height. -/
def getRowHeight (st : GridState) (row : Nat) : Int :=
  jsNumOr (lookupA (activeSheet st).rowHeights row) DEFAULT_ROW_HEIGHT

/-- `getCellId(row, col)`: template string of the column letter and the
1-based row number (out-of-range column indices, which the source never
produces, give the empty label). -/
def getCellId (row col : Nat) : String := COLUMNS.getD col "" ++ toString (row + 1)

/-- JS `obj[cellId] || ''` on the sparse cell map. -/
def getCellData (data : List (String × String)) (cellId : String) : String :=
  (lookupA data cellId).getD ""

/-- `getCellValue(row, col)`: the active sheet's stored value or the empty
string. -/
def getCellValue (st : GridState) (row col : Nat) : String :=
  getCellData (activeSheet st).data (getCellId row col)

/-- The store write shared by `handleCellBlur`, the formula-bar `onChange`
and the sheet-tab flush: map over the sheets, replacing the entry for
`cellId` in the sheet whose id matches, leaving every other sheet alone. -/
def setCell (sheets : List Sheet) (sheetId cellId v : String) : List Sheet :=
  sheets.map (fun sheet =>
    if sheet.id = sheetId then { sheet with data := insertA sheet.data cellId v } else sheet)

/-- Read a cell of an arbitrary sheet of the collection (the `find?`-based
access every read path in the component performs). -/
def getCellOf (sheets : List Sheet) (sheetId cellId : String) : String :=
  getCellData (((sheets.find? (fun s => s.id == sheetId)).getD emptySheet).data) cellId

/-- `handleCellClick(row, col)`: select the cell, open an edit session on
it, seed the draft with the stored value.  (The `setTimeout` focus call is
view glue with no state effect.) -/
def handleCellClick (row col : Nat) (st : GridState) : GridState :=
  { st with
    selectedCell := some (getCellId row col)
    editingCell := some (getCellId row col)
    cellValue := getCellValue st row col }

/-- `handleCellChange(value)`: keystrokes in the grid edit surface update
only the draft. -/
def handleCellChange (v : String) (st : GridState) : GridState :=
  { st with cellValue := v }

/-- `handleCellBlur`: `if (selectedCell && editingCell === selectedCell)`
write the draft into the active sheet at the selected cell; in all cases
close the edit session.  `selectedCell &&` is JS truthiness: `null` and the
empty string both fail the guard. -/
def handleCellBlur (st : GridState) : GridState :=
  let sheets' :=
    match st.selectedCell with
    | some c =>
      if c ≠ "" ∧ st.editingCell = some c then setCell st.sheets st.activeSheetId c st.cellValue
      else st.sheets
    | none => st.sheets
  { st with sheets := sheets', editingCell := none }

/-- `handleKeyDown(e, row, col)`: Enter/Tab/Arrow keys commit via
`handleCellBlur` first, then re-click the neighbouring cell when its index
stays inside the grid; any other key does nothing here. -/
def handleKeyDown (key : String) (row col : Nat) (st : GridState) : GridState :=
  if key = "Enter" then
    let st1 := handleCellBlur st
    if row < ROWS - 1 then handleCellClick (row + 1) col st1 else st1
  else if key = "Tab" then
    let st1 := handleCellBlur st
    if col < COLUMNS.length - 1 then handleCellClick row (col + 1) st1 else st1
  else if key = "ArrowDown" then
    let st1 := handleCellBlur st
    if row < ROWS - 1 then handleCellClick (row + 1) col st1 else st1
  else if key = "ArrowUp" then
    let st1 := handleCellBlur st
    if row > 0 then handleCellClick (row - 1) col st1 else st1
  else if key = "ArrowRight" then
    let st1 := handleCellBlur st
    if col < COLUMNS.length - 1 then handleCellClick row (col + 1) st1 else st1
  else if key = "ArrowLeft" then
    let st1 := handleCellBlur st
    if col > 0 then handleCellClick row (col - 1) st1 else st1
  else st

/-- The `useEffect` keyed on `activeSheetId`: whenever the active-sheet id
actually changes, the selection, edit session and draft are cleared. -/
def sheetSwitchEffect (oldActive : String) (st : GridState) : GridState :=
  if st.activeSheetId ≠ oldActive then
    { st with selectedCell := none, editingCell := none, cellValue := "" }
  else st

/-- `updateSheetDimensions(columnWidths?, rowHeights?)`: spread-merge the
supplied partial override maps into the active sheet's maps; an `undefined`
argument (modelled `none`) leaves that map untouched. -/
def updateSheetDimensions (cw : Option (List (String × Int))) (rh : Option (List (Nat × Int)))
    (st : GridState) : GridState :=
  { st with sheets := st.sheets.map (fun sheet =>
      if sheet.id = st.activeSheetId then
        { sheet with
          columnWidths := match cw with
            | some m => mergeA sheet.columnWidths m
            | none => sheet.columnWidths
          rowHeights := match rh with
            | some m => mergeA sheet.rowHeights m
            | none => sheet.rowHeights }
      else sheet) }

/-- `handleResizeStart(type, index, e)`: record the drag kind, target key,
baseline pointer coordinate (`clientX` for columns, `clientY` for rows) and
the current size of the target.  The source casts `index` to the kind the
drag expects; the mismatched cases (a row index in a column drag and vice
versa) never arise from the render call sites. -/
def handleResizeStart (rt : ResizeType) (idx : String ⊕ Nat) (x y : Int) (st : GridState) :
    GridState :=
  { st with
    isResizing := true
    resizingType := some rt
    resizingIndex := some idx
    resizeStartPos := match rt with | ResizeType.column => x | ResizeType.row => y
    resizeStartSize := match rt with
      | ResizeType.column => getColumnWidth st (Sum.elim id toString idx)
      | ResizeType.row => getRowHeight st (Sum.elim (fun _ => 0) id idx) }

/-- `handleMouseMove(e)`: while a drag is in progress, the new size of the
dragged key is `max(MIN, startSize + (pointer - startPointer))`, written
through `updateSheetDimensions`.  A column drag whose stored index is a
number would use that number's string form as the key (JS object-key
coercion); a row drag with a string index cannot store under the numeric
map and is left as a stutter step — neither arises from `handleResizeStart`
call sites. -/
def handleMouseMove (x y : Int) (st : GridState) : GridState :=
  if st.isResizing = false then st
  else
    match st.resizingType with
    | none => st
    | some rt =>
      match st.resizingIndex with
      | none => st
      | some idx =>
        let currentPos := match rt with | ResizeType.column => x | ResizeType.row => y
        let diff := currentPos - st.resizeStartPos
        let newSize :=
          max (match rt with | ResizeType.column => MIN_COLUMN_WIDTH | ResizeType.row => MIN_ROW_HEIGHT)
            (st.resizeStartSize + diff)
        match rt with
        | ResizeType.column =>
          updateSheetDimensions (some [(Sum.elim id toString idx, newSize)]) none st
        | ResizeType.row =>
          match idx with
          | Sum.inr r => updateSheetDimensions none (some [(r, newSize)]) st
          | Sum.inl _ => st

/-- `handleMouseUp`: end the drag. -/
def handleMouseUp (st : GridState) : GridState :=
  { st with isResizing := false, resizingType := none, resizingIndex := none }

/-- `addNewSheet`: append a sheet named from the current count, with an id
generated by `Date.now().toString()` — the generated id is an input here
(`newId`), since the clock is outside the program.  The new sheet becomes
active, which fires the selection-clearing effect when the id changed. -/
def addNewSheet (newId : String) (st : GridState) : GridState :=
  let newSheet : Sheet :=
    { id := newId
      name := "Sheet" ++ toString (st.sheets.length + 1)
      data := []
      columnWidths := []
      rowHeights := [] }
  sheetSwitchEffect st.activeSheetId
    { st with sheets := st.sheets ++ [newSheet], activeSheetId := newId }

/-- `deleteSheet(sheetId)`: refuse to delete the last sheet; otherwise drop
every sheet with that id and, if the active sheet was deleted, activate the
first remaining sheet (`newSheets[0].id` — which would throw on an empty
remainder; `emptySheet` stands in for that unreachable throw). -/
def deleteSheetOp (sheetId : String) (st : GridState) : GridState :=
  if st.sheets.length = 1 then st
  else
    let newSheets := st.sheets.filter (fun s => s.id != sheetId)
    let newActive :=
      if st.activeSheetId = sheetId then (newSheets.headD emptySheet).id else st.activeSheetId
    sheetSwitchEffect st.activeSheetId { st with sheets := newSheets, activeSheetId := newActive }

/-- `renameSheet(sheetId, newName)`: set the matching sheet's name
verbatim. -/
def renameSheetOp (sheetId newName : String) (st : GridState) : GridState :=
  { st with sheets := st.sheets.map (fun sheet =>
      if sheet.id = sheetId then { sheet with name := newName } else sheet) }

/-- The sheet tab's `onClick`: flush a pending grid edit of the selected
cell into the *old* active sheet (`cellValue !== undefined` always holds in
the model, the draft being a plain string), then activate the clicked
sheet; the effect clears the selection when the active id changed. -/
def switchSheet (targetId : String) (st : GridState) : GridState :=
  let flushed :=
    match st.selectedCell with
    | some c =>
      if c ≠ "" ∧ st.editingCell = some c then
        { st with sheets := setCell st.sheets st.activeSheetId c st.cellValue }
      else st
    | none => st
  sheetSwitchEffect st.activeSheetId { flushed with activeSheetId := targetId }

/-- The formula bar's `onChange`: update the draft and, when a cell is
selected (JS truthiness again), write the keystroke's value straight into
the active sheet at that cell. -/
def handleFormulaChange (v : String) (st : GridState) : GridState :=
  let st1 := { st with cellValue := v }
  match st.selectedCell with
  | some c =>
    if c ≠ "" then { st1 with sheets := setCell st1.sheets st1.activeSheetId c v } else st1
  | none => st1

/-- Digit value of an ASCII digit character. -/
def digitVal (c : Char) : Nat := c.toNat - 48

/-- Continue `parseInt` over the remaining characters, stopping at the
first non-digit (JS `parseInt` semantics on a decimal string). -/
def jsParseDigits : List Char → Nat → Nat
  | [], acc => acc
  | c :: rest, acc => if c.isDigit then jsParseDigits rest (acc * 10 + digitVal c) else acc

/-- `parseInt` on a string's characters: `none` models `NaN` (no leading
digit). -/
def jsParseIntChars : List Char → Option Nat
  | [] => none
  | c :: rest => if c.isDigit then some (jsParseDigits rest (digitVal c)) else none

/-- The row decode the formula bar applies to the selected cell id:
`parseInt(selectedCell.slice(1)) - 1`; `none` models the `NaN` that a
malformed id would produce. -/
def rowOf (id : String) : Option Int :=
  (jsParseIntChars (id.data.drop 1)).map (fun n => (n : Int) - 1)

/-- The column decode the formula bar applies to the selected cell id:
`COLUMNS.indexOf(selectedCell[0])`, `-1` when the letter is unknown (or
the id is empty, where `selectedCell[0]` is `undefined`). -/
def colOf (id : String) : Int :=
  match id.data with
  | [] => -1
  | ch :: _ =>
    match COLUMNS.indexOf? (String.mk [ch]) with
    | some i => (i : Int)
    | none => -1

/-- One sheet-collection operation, as in the claim about id uniqueness:
`create` carries the id the clock produced for `Date.now().toString()`. -/
inductive SheetOp where
  | create (newId : String)
  | delete (sheetId : String)
  | rename (sheetId newName : String)
deriving DecidableEq, Repr

def applyOp : SheetOp → GridState → GridState
  | SheetOp.create newId, st => addNewSheet newId st
  | SheetOp.delete sheetId, st => deleteSheetOp sheetId st
  | SheetOp.rename sheetId newName, st => renameSheetOp sheetId newName st

def applyOps (ops : List SheetOp) (st : GridState) : GridState :=
  ops.foldl (fun s op => applyOp op s) st

/-- The ids currently in the collection. -/
def idsOf (st : GridState) : List String := st.sheets.map Sheet.id

/-- Freshness of the clock inputs along an operation sequence: every id
handed to `create` differs from every id present at that moment. -/
def FreshOps : GridState → List SheetOp → Prop
  | _, [] => True
  | st, op :: ops =>
    (∀ nid, op = SheetOp.create nid → nid ∉ idsOf st) ∧ FreshOps (applyOp op st) ops

/-- The six keys that commit and navigate in `handleKeyDown`. -/
def keyList : List String := ["Enter", "Tab", "ArrowDown", "ArrowUp", "ArrowLeft", "ArrowRight"]

/-- The destination index of a directional move, as the claim states it
(`Enter`/`ArrowDown` one row down, `Tab`/`ArrowRight` one column right,
`ArrowUp` one row up, `ArrowLeft` one column left), over the integers so
that leaving the grid at the top or left is visible as a negative index. -/
def moveDest (key : String) (row col : Nat) : Int × Int :=
  if key = "Enter" then ((row : Int) + 1, (col : Int))
  else if key = "Tab" then ((row : Int), (col : Int) + 1)
  else if key = "ArrowDown" then ((row : Int) + 1, (col : Int))
  else if key = "ArrowUp" then ((row : Int) - 1, (col : Int))
  else if key = "ArrowRight" then ((row : Int), (col : Int) + 1)
  else if key = "ArrowLeft" then ((row : Int), (col : Int) - 1)
  else ((row : Int), (col : Int))

/-- Destination lies within the 50-row, 26-column grid. -/
def inBounds (d : Int × Int) : Prop := 0 ≤ d.1 ∧ d.1 < 50 ∧ 0 ≤ d.2 ∧ d.2 < 26

instance (d : Int × Int) : Decidable (inBounds d) := by
  unfold inBounds
  infer_instance

/-- Every stored geometry override respects its configured minimum. -/
def SizesOK (sheets : List Sheet) : Prop :=
  ∀ s ∈ sheets, (∀ p ∈ s.columnWidths, MIN_COLUMN_WIDTH ≤ p.2) ∧
    (∀ p ∈ s.rowHeights, MIN_ROW_HEIGHT ≤ p.2)

/-- A two-sheet collection as it exists right after one `addNewSheet` (ids
`"1"` and `"2"` for readability), used by concrete witnesses. -/
def twoSheets : List Sheet :=
  [{ id := "1", name := "Sheet1", data := [], columnWidths := [], rowHeights := [] },
   { id := "2", name := "Sheet2", data := [], columnWidths := [], rowHeights := [] }]

def twoSheetState : GridState := { initialState with sheets := twoSheets }

/-! ### Helper lemmas about the association-list primitives -/

theorem lookupA_insertA_self {α β : Type} [DecidableEq α] (m : List (α × β)) (k : α) (v : β) :
    lookupA (insertA m k v) k = some v := by
  simp [insertA, lookupA]

theorem lookupA_filterOut {α β : Type} [DecidableEq α] (m : List (α × β)) (k k' : α)
    (h : k' ≠ k) :
    lookupA (m.filter (fun p => decide (p.1 ≠ k))) k' = lookupA m k' := by
  induction m with
  | nil => rfl
  | cons p rest ih =>
    obtain ⟨a, b⟩ := p
    rw [List.filter_cons]
    by_cases hp : a = k
    · rw [if_neg (by simp [hp]), ih]
      have hne : ¬ k' = a := fun hE => h (hE.trans hp)
      simp only [lookupA]
      rw [if_neg hne]
    · rw [if_pos (by simp [hp])]
      simp only [lookupA]
      by_cases hk : k' = a
      · rw [if_pos hk, if_pos hk]
      · rw [if_neg hk, if_neg hk, ih]

theorem lookupA_insertA_ne {α β : Type} [DecidableEq α] (m : List (α × β)) (k k' : α) (v : β)
    (h : k' ≠ k) :
    lookupA (insertA m k v) k' = lookupA m k' := by
  show lookupA ((k, v) :: m.filter (fun p => decide (p.1 ≠ k))) k' = lookupA m k'
  simp only [lookupA]
  rw [if_neg h]
  exact lookupA_filterOut m k k' h

theorem mem_insertA {α β : Type} [DecidableEq α] {m : List (α × β)} {k : α} {v : β}
    {p : α × β} (hp : p ∈ insertA m k v) : p = (k, v) ∨ p ∈ m := by
  rcases List.mem_cons.mp hp with h | h
  · exact Or.inl h
  · exact Or.inr (List.mem_of_mem_filter h)

theorem mem_mergeA {α β : Type} [DecidableEq α] {old new : List (α × β)} {p : α × β}
    (hp : p ∈ mergeA old new) : p ∈ old ∨ p ∈ new := by
  induction new generalizing old with
  | nil => exact Or.inl hp
  | cons q rest ih =>
    have hp' : p ∈ mergeA (insertA old q.1 q.2) rest := hp
    rcases ih hp' with h | h
    · rcases mem_insertA h with h' | h'
      · right
        rw [h']
        exact List.mem_cons_self _ _
      · exact Or.inl h'
    · exact Or.inr (List.mem_cons_of_mem _ h)

theorem mergeA_single {α β : Type} [DecidableEq α] (old : List (α × β)) (k : α) (v : β) :
    mergeA old [(k, v)] = insertA old k v := rfl

/-! ### Helper lemmas about `find?` over id-preserving sheet maps -/

theorem find?_map_id_eq (sheets : List Sheet) (q : String) (g : Sheet → Sheet)
    (hg : ∀ s, (g s).id = s.id) :
    (sheets.map g).find? (fun s => s.id == q) = (sheets.find? (fun s => s.id == q)).map g := by
  induction sheets with
  | nil => rfl
  | cons s rest ih =>
    by_cases h : s.id = q
    · simp [List.find?_cons, hg, h]
    · simp [List.find?_cons, hg, h, ih]

theorem find?_setCell (sheets : List Sheet) (sid cid v q : String) :
    (setCell sheets sid cid v).find? (fun s => s.id == q) =
      (sheets.find? (fun s => s.id == q)).map
        (fun s => if s.id = sid then { s with data := insertA s.data cid v } else s) := by
  apply find?_map_id_eq
  intro s
  by_cases h : s.id = sid <;> simp [h]

theorem find?_eq_some_of_isSome {sheets : List Sheet} {q : String}
    (h : (sheets.find? (fun s => s.id == q)).isSome) :
    ∃ s, sheets.find? (fun s => s.id == q) = some s ∧ s.id = q := by
  rcases Option.isSome_iff_exists.mp h with ⟨s, hs⟩
  refine ⟨s, hs, ?_⟩
  have := List.find?_some hs
  simpa using this

theorem getCellOf_setCell_self {sheets : List Sheet} {sid : String} (cid v : String)
    (h : (sheets.find? (fun s => s.id == sid)).isSome) :
    getCellOf (setCell sheets sid cid v) sid cid = v := by
  rcases find?_eq_some_of_isSome h with ⟨s, hs, hid⟩
  rw [getCellOf, find?_setCell, hs]
  simp [hid, getCellData, lookupA_insertA_self]

theorem getCellOf_setCell_other_sheet (sheets : List Sheet) (sid cid v q c' : String)
    (h : q ≠ sid) :
    getCellOf (setCell sheets sid cid v) q c' = getCellOf sheets q c' := by
  rw [getCellOf, find?_setCell]
  cases hfind : sheets.find? (fun s => s.id == q) with
  | none => simp [getCellOf, hfind]
  | some s =>
    have hid : s.id = q := by simpa using List.find?_some hfind
    rw [getCellOf, hfind]
    have hne : ¬ s.id = sid := by rw [hid]; exact h
    simp [hne]

/-! ### Basic facts about the handlers -/

theorem getCellId_ne_empty (row col : Nat) (h : col < 26) : getCellId row col ≠ "" := by
  have hlab : ∀ c, c < 26 → (COLUMNS.getD c "").length = 1 := by decide
  intro hEq
  have hz : (getCellId row col).length = 0 := by rw [hEq]; rfl
  rw [getCellId, String.length_append, hlab col h] at hz
  omega

theorem handleCellBlur_sheets_of_editing (st : GridState) (c : String)
    (hsel : st.selectedCell = some c) (hedit : st.editingCell = some c) (hc : c ≠ "") :
    (handleCellBlur st).sheets = setCell st.sheets st.activeSheetId c st.cellValue := by
  simp [handleCellBlur, hsel, hedit, hc]

theorem sheetSwitchEffect_sheets (o : String) (st : GridState) :
    (sheetSwitchEffect o st).sheets = st.sheets := by
  unfold sheetSwitchEffect
  split <;> rfl

theorem sheetSwitchEffect_activeSheetId (o : String) (st : GridState) :
    (sheetSwitchEffect o st).activeSheetId = st.activeSheetId := by
  unfold sheetSwitchEffect
  split <;> rfl

theorem map_noop (l : List Sheet) (f : Sheet → Sheet) (h : ∀ s ∈ l, f s = s) :
    l.map f = l := by
  induction l with
  | nil => rfl
  | cons a t ih =>
    rw [List.map_cons, h a (List.mem_cons_self a t), ih (fun s hs => h s (List.mem_cons_of_mem a hs))]

theorem filter_noop (l : List Sheet) (p : Sheet → Bool) (h : ∀ s ∈ l, p s = true) :
    l.filter p = l := by
  induction l with
  | nil => rfl
  | cons a t ih =>
    rw [List.filter_cons, if_pos (h a (List.mem_cons_self a t)),
      ih (fun s hs => h s (List.mem_cons_of_mem a hs))]

theorem getD_map_sheets (f : Sheet → Sheet) (l : List Sheet) (i : Nat) (h : i < l.length) :
    (l.map f).getD i emptySheet = f (l.getD i emptySheet) := by
  rw [List.getD_eq_getElem?_getD, List.getD_eq_getElem?_getD, List.getElem?_map,
    List.getElem?_eq_getElem h]
  rfl

theorem handleKeyDown_sheets (key : String) (row col : Nat) (st : GridState)
    (hkey : key ∈ keyList) :
    (handleKeyDown key row col st).sheets = (handleCellBlur st).sheets := by
  simp only [keyList, List.mem_cons, List.not_mem_nil, or_false] at hkey
  rcases hkey with rfl | rfl | rfl | rfl | rfl | rfl
  · show (if row < ROWS - 1 then handleCellClick (row + 1) col (handleCellBlur st)
      else handleCellBlur st).sheets = (handleCellBlur st).sheets
    split <;> rfl
  · show (if col < COLUMNS.length - 1 then handleCellClick row (col + 1) (handleCellBlur st)
      else handleCellBlur st).sheets = (handleCellBlur st).sheets
    split <;> rfl
  · show (if row < ROWS - 1 then handleCellClick (row + 1) col (handleCellBlur st)
      else handleCellBlur st).sheets = (handleCellBlur st).sheets
    split <;> rfl
  · show (if row > 0 then handleCellClick (row - 1) col (handleCellBlur st)
      else handleCellBlur st).sheets = (handleCellBlur st).sheets
    split <;> rfl
  · show (if col > 0 then handleCellClick row (col - 1) (handleCellBlur st)
      else handleCellBlur st).sheets = (handleCellBlur st).sheets
    split <;> rfl
  · show (if col < COLUMNS.length - 1 then handleCellClick row (col + 1) (handleCellBlur st)
      else handleCellBlur st).sheets = (handleCellBlur st).sheets
    split <;> rfl

theorem activeSheet_updateDims (st : GridState) (cw : Option (List (String × Int)))
    (rh : Option (List (Nat × Int)))
    (hact : (st.sheets.find? (fun s => s.id == st.activeSheetId)).isSome) :
    activeSheet (updateSheetDimensions cw rh st) =
      { activeSheet st with
        columnWidths := match cw with
          | some m => mergeA (activeSheet st).columnWidths m
          | none => (activeSheet st).columnWidths
        rowHeights := match rh with
          | some m => mergeA (activeSheet st).rowHeights m
          | none => (activeSheet st).rowHeights } := by
  rcases find?_eq_some_of_isSome hact with ⟨s, hs, hid⟩
  have hcomm := find?_map_id_eq st.sheets st.activeSheetId
    (fun sheet =>
      if sheet.id = st.activeSheetId then
        { sheet with
          columnWidths := match cw with
            | some m => mergeA sheet.columnWidths m
            | none => sheet.columnWidths
          rowHeights := match rh with
            | some m => mergeA sheet.rowHeights m
            | none => sheet.rowHeights }
      else sheet)
    (fun t => by by_cases h : t.id = st.activeSheetId <;> simp [h])
  simp only [activeSheet, updateSheetDimensions, hcomm, hs, Option.map_some']
  rw [if_pos hid]

theorem SizesOK_updateDims (st : GridState) (cw : Option (List (String × Int)))
    (rh : Option (List (Nat × Int)))
    (hcw : ∀ m, cw = some m → ∀ p ∈ m, MIN_COLUMN_WIDTH ≤ p.2)
    (hrh : ∀ m, rh = some m → ∀ p ∈ m, MIN_ROW_HEIGHT ≤ p.2)
    (hOK : SizesOK st.sheets) : SizesOK (updateSheetDimensions cw rh st).sheets := by
  intro s hs
  rcases List.mem_map.mp hs with ⟨s0, hs0, rfl⟩
  by_cases hid : s0.id = st.activeSheetId
  · rw [if_pos hid]
    constructor
    · intro p hp
      cases cw with
      | none => exact (hOK s0 hs0).1 p hp
      | some m =>
        rcases mem_mergeA hp with h | h
        · exact (hOK s0 hs0).1 p h
        · exact hcw m rfl p h
    · intro p hp
      cases rh with
      | none => exact (hOK s0 hs0).2 p hp
      | some m =>
        rcases mem_mergeA hp with h | h
        · exact (hOK s0 hs0).2 p h
        · exact hrh m rfl p h
  · rw [if_neg hid]
    exact hOK s0 hs0

theorem handleMouseMove_col (st : GridState) (c : String) (x y : Int)
    (hR : st.isResizing = true) (hT : st.resizingType = some ResizeType.column)
    (hI : st.resizingIndex = some (Sum.inl c)) :
    handleMouseMove x y st =
      updateSheetDimensions
        (some [(c, max MIN_COLUMN_WIDTH (st.resizeStartSize + (x - st.resizeStartPos)))]) none
        st := by
  simp [handleMouseMove, hR, hT, hI]

theorem handleMouseMove_row (st : GridState) (r : Nat) (x y : Int)
    (hR : st.isResizing = true) (hT : st.resizingType = some ResizeType.row)
    (hI : st.resizingIndex = some (Sum.inr r)) :
    handleMouseMove x y st =
      updateSheetDimensions none
        (some [(r, max MIN_ROW_HEIGHT (st.resizeStartSize + (y - st.resizeStartPos)))])
        st := by
  simp [handleMouseMove, hR, hT, hI]

theorem idsOf_sheetSwitchEffect (o : String) (st : GridState) :
    idsOf (sheetSwitchEffect o st) = idsOf st := by
  unfold idsOf
  rw [sheetSwitchEffect_sheets]

theorem idsOf_addNewSheet (nid : String) (st : GridState) :
    idsOf (addNewSheet nid st) = idsOf st ++ [nid] := by
  unfold addNewSheet
  rw [idsOf_sheetSwitchEffect]
  unfold idsOf
  simp

theorem idsOf_renameSheetOp (sid nm : String) (st : GridState) :
    idsOf (renameSheetOp sid nm st) = idsOf st := by
  show (st.sheets.map (fun sheet =>
    if sheet.id = sid then { sheet with name := nm } else sheet)).map Sheet.id =
    st.sheets.map Sheet.id
  induction st.sheets with
  | nil => rfl
  | cons a t ih =>
    simp only [List.map_cons, ih]
    by_cases h : a.id = sid <;> simp [h]

theorem idsOf_deleteSheetOp_sublist (sid : String) (st : GridState) :
    (idsOf (deleteSheetOp sid st)).Sublist (idsOf st) := by
  unfold deleteSheetOp
  by_cases hlen : st.sheets.length = 1
  · rw [if_pos hlen]
  · rw [if_neg hlen, idsOf_sheetSwitchEffect]
    unfold idsOf
    exact (List.filter_sublist _).map Sheet.id

/-! ### The claims -/

/-- C2: for every row in [0,50) and col in [0,26), the formula-bar decode
of the id produced by `getCellId` recovers the indices:
`rowOf (getCellId row col) = row` (via `parseInt` of the digits minus 1)
and `colOf (getCellId row col) = col` (via the index of the leading letter
in `COLUMNS`). -/
theorem address_roundtrip : ∀ row < 50, ∀ col < 26,
    rowOf (getCellId row col) = some (row : Int) ∧
    colOf (getCellId row col) = (col : Int) := by decide

theorem address_roundtrip_witness :
    rowOf (getCellId 11 1) = some (11 : Int) ∧ colOf (getCellId 11 1) = (1 : Int) :=
  address_roundtrip 11 (by decide) 1 (by decide)

/-- C1: while a grid edit session is open on cell `c` (selected and editing
both `c`), a keystroke in the edit surface (`handleCellChange`) updates
only the draft — the sheets, and hence the stored value of `c`, are
unchanged — and a commit (`handleCellBlur`, also reached by
Enter/Tab/arrow in `handleKeyDown`) writes the draft to the active sheet
at `c`, so `getCellOf` afterwards returns the draft. -/
theorem commit_on_blur (st : GridState) (c : String)
    (hsel : st.selectedCell = some c) (hedit : st.editingCell = some c) (hc : c ≠ "")
    (hact : (st.sheets.find? (fun s => s.id == st.activeSheetId)).isSome) :
    (∀ v, (handleCellChange v st).sheets = st.sheets ∧
      (handleCellChange v st).selectedCell = st.selectedCell ∧
      (handleCellChange v st).editingCell = st.editingCell ∧
      (handleCellChange v st).cellValue = v ∧
      getCellOf (handleCellChange v st).sheets st.activeSheetId c =
        getCellOf st.sheets st.activeSheetId c) ∧
    getCellOf (handleCellBlur st).sheets st.activeSheetId c = st.cellValue ∧
    (handleCellBlur st).editingCell = none ∧
    (handleCellBlur st).selectedCell = some c ∧
    (∀ key row col, key ∈ keyList →
      getCellOf (handleKeyDown key row col st).sheets st.activeSheetId c = st.cellValue) := by
  have hblur : (handleCellBlur st).sheets = setCell st.sheets st.activeSheetId c st.cellValue :=
    handleCellBlur_sheets_of_editing st c hsel hedit hc
  refine ⟨fun v => ⟨rfl, rfl, rfl, rfl, rfl⟩, ?_, rfl, hsel, ?_⟩
  · rw [hblur]
    exact getCellOf_setCell_self c st.cellValue hact
  · intro key row col hkey
    rw [handleKeyDown_sheets key row col st hkey, hblur]
    exact getCellOf_setCell_self c st.cellValue hact

theorem commit_on_blur_witness :
    getCellOf
      (handleCellBlur (handleCellChange "42" (handleCellClick 1 1 initialState))).sheets
      "1" "B2" = "42" :=
  (commit_on_blur (handleCellChange "42" (handleCellClick 1 1 initialState)) "B2"
    rfl rfl (by decide) (by decide)).2.1

/-- C9: with a cell selected, each formula-bar keystroke
(`handleFormulaChange`) writes its value straight into the active sheet at
that cell — no draft stage — regardless of whether a grid edit session on
the same cell is open, so after a formula-bar keystroke the store holds
that keystroke's value (last write wins over an uncommitted grid draft). -/
theorem formula_bar_writes (st : GridState) (v c : String)
    (hsel : st.selectedCell = some c) (hc : c ≠ "")
    (hact : (st.sheets.find? (fun s => s.id == st.activeSheetId)).isSome) :
    getCellOf (handleFormulaChange v st).sheets st.activeSheetId c = v ∧
    (handleFormulaChange v st).cellValue = v ∧
    (handleFormulaChange v st).selectedCell = st.selectedCell ∧
    (handleFormulaChange v st).editingCell = st.editingCell ∧
    (handleFormulaChange v st).activeSheetId = st.activeSheetId := by
  have hsheets : (handleFormulaChange v st).sheets = setCell st.sheets st.activeSheetId c v := by
    simp [handleFormulaChange, hsel, hc]
  refine ⟨?_, ?_, ?_, ?_, ?_⟩
  · rw [hsheets]
    exact getCellOf_setCell_self c v hact
  all_goals simp [handleFormulaChange, hsel, hc]

theorem formula_bar_writes_witness :
    getCellOf
      (handleFormulaChange "99" (handleCellChange "draft" (handleCellClick 2 2 initialState))).sheets
      "1" "C3" = "99" :=
  (formula_bar_writes (handleCellChange "draft" (handleCellClick 2 2 initialState)) "99" "C3"
    rfl (by decide) (by decide)).1

/-- C8: a sheet switch to a different sheet issued while editing the
selected cell `c` first flushes the draft into the old active sheet at
`c`, then activates the target sheet and resets the selection state to
Idle (no selected cell, no editing cell, empty draft). -/
theorem sheet_switch_flush (st : GridState) (targetId c : String)
    (hsel : st.selectedCell = some c) (hedit : st.editingCell = some c) (hc : c ≠ "")
    (hne : targetId ≠ st.activeSheetId)
    (hact : (st.sheets.find? (fun s => s.id == st.activeSheetId)).isSome) :
    getCellOf (switchSheet targetId st).sheets st.activeSheetId c = st.cellValue ∧
    (switchSheet targetId st).activeSheetId = targetId ∧
    (switchSheet targetId st).selectedCell = none ∧
    (switchSheet targetId st).editingCell = none ∧
    (switchSheet targetId st).cellValue = "" := by
  have hsheets :
      (switchSheet targetId st).sheets = setCell st.sheets st.activeSheetId c st.cellValue := by
    simp [switchSheet, sheetSwitchEffect, hsel, hedit, hc, hne]
  refine ⟨?_, ?_, ?_, ?_, ?_⟩
  · rw [hsheets]
    exact getCellOf_setCell_self c st.cellValue hact
  all_goals simp [switchSheet, sheetSwitchEffect, hsel, hedit, hc, hne]

theorem sheet_switch_flush_witness :
    getCellOf
      (switchSheet "2" (handleCellChange "pending"
        (handleCellClick 0 0 twoSheetState))).sheets "1" "A1" = "pending" ∧
    (switchSheet "2" (handleCellChange "pending"
      (handleCellClick 0 0 twoSheetState))).selectedCell = none :=
  ⟨(sheet_switch_flush (handleCellChange "pending" (handleCellClick 0 0 twoSheetState)) "2" "A1"
      rfl rfl (by decide) (by decide) (by decide)).1,
   (sheet_switch_flush (handleCellChange "pending" (handleCellClick 0 0 twoSheetState)) "2" "A1"
      rfl rfl (by decide) (by decide) (by decide)).2.2.1⟩

/-- C6: `setCell` changes at most the entry for `cid` in the target
sheet's cell map: the collection keeps its length; every sheet at a
position whose id differs from the target is untouched as a whole record;
the target-position sheet keeps its id, name and geometry and all cells
other than `cid`; and reading any other sheet id at the same `cid` gives
what it gave before. -/
theorem setCell_isolation (sheets : List Sheet) (sid cid v : String) :
    (setCell sheets sid cid v).length = sheets.length ∧
    (∀ i, i < sheets.length → (sheets.getD i emptySheet).id ≠ sid →
      (setCell sheets sid cid v).getD i emptySheet = sheets.getD i emptySheet) ∧
    (∀ i, i < sheets.length → (sheets.getD i emptySheet).id = sid →
      ((setCell sheets sid cid v).getD i emptySheet).id = (sheets.getD i emptySheet).id ∧
      ((setCell sheets sid cid v).getD i emptySheet).name = (sheets.getD i emptySheet).name ∧
      ((setCell sheets sid cid v).getD i emptySheet).columnWidths =
        (sheets.getD i emptySheet).columnWidths ∧
      ((setCell sheets sid cid v).getD i emptySheet).rowHeights =
        (sheets.getD i emptySheet).rowHeights ∧
      (∀ c', c' ≠ cid →
        getCellData ((setCell sheets sid cid v).getD i emptySheet).data c' =
          getCellData (sheets.getD i emptySheet).data c')) ∧
    (∀ q c', q ≠ sid → getCellOf (setCell sheets sid cid v) q c' = getCellOf sheets q c') := by
  refine ⟨List.length_map _ _, ?_, ?_, ?_⟩
  · intro i hi hid
    rw [setCell, getD_map_sheets _ _ i hi, if_neg hid]
  · intro i hi hid
    rw [setCell, getD_map_sheets _ _ i hi, if_pos hid]
    refine ⟨rfl, rfl, rfl, rfl, ?_⟩
    intro c' hc'
    exact congrArg (fun o => o.getD "") (lookupA_insertA_ne _ cid c' v hc')
  · intro q c' hq
    exact getCellOf_setCell_other_sheet sheets sid cid v q c' hq

theorem setCell_isolation_witness :
    getCellOf (setCell twoSheets "1" "A1" "x") "2" "A1" = getCellOf twoSheets "2" "A1" ∧
    getCellOf twoSheets "2" "A1" = "" :=
  ⟨(setCell_isolation twoSheets "1" "A1" "x").2.2.2 "2" "A1" (by decide), by decide⟩

/-- C10: operations on a sheet id absent from the collection are silent
no-ops: `renameSheet` returns the state unchanged, and `deleteSheet`
(whose guard also covers the singleton case) returns the state unchanged
whenever the active id is present in the collection — in particular no
sheet is removed and `activeSheetId` is untouched. -/
theorem unknown_id_noop (st : GridState) (sid : String)
    (habs : ∀ s ∈ st.sheets, s.id ≠ sid) :
    (∀ nm, renameSheetOp sid nm st = st) ∧
    ((∃ s ∈ st.sheets, s.id = st.activeSheetId) → deleteSheetOp sid st = st) := by
  constructor
  · intro nm
    have hmap : st.sheets.map (fun sheet =>
        if sheet.id = sid then { sheet with name := nm } else sheet) = st.sheets :=
      map_noop _ _ (fun s hs => if_neg (habs s hs))
    show { st with sheets := st.sheets.map _ } = st
    rw [hmap]
  · intro hact
    by_cases hlen : st.sheets.length = 1
    · rw [deleteSheetOp, if_pos hlen]
    · rcases hact with ⟨s, hs, hsid⟩
      have hfilter : st.sheets.filter (fun s => s.id != sid) = st.sheets :=
        filter_noop _ _ (fun t ht => by simp [habs t ht])
      have hactne : st.activeSheetId ≠ sid := by
        rw [← hsid]
        exact habs s hs
      rw [deleteSheetOp, if_neg hlen]
      simp only [hfilter, if_neg hactne]
      show sheetSwitchEffect st.activeSheetId
        { st with sheets := st.sheets, activeSheetId := st.activeSheetId } = st
      rw [sheetSwitchEffect, if_neg (by simp)]

theorem unknown_id_noop_witness :
    renameSheetOp "zzz" "NewName" twoSheetState = twoSheetState ∧
    deleteSheetOp "zzz" twoSheetState = twoSheetState :=
  ⟨(unknown_id_noop twoSheetState "zzz" (by decide)).1 "NewName",
   (unknown_id_noop twoSheetState "zzz" (by decide)).2 (by decide)⟩

/-- C7: `deleteSheet` on a one-sheet collection returns the state
unchanged; otherwise it removes exactly the sheets with the given id
(keeping the rest in order), and if the removed sheet was active the first
remaining sheet becomes active, while deleting a non-active sheet leaves
`activeSheetId` unchanged. -/
theorem deleteSheet_spec (st : GridState) (sid : String) :
    (st.sheets.length = 1 → deleteSheetOp sid st = st) ∧
    (st.sheets.length ≠ 1 →
      (∀ s, s ∈ (deleteSheetOp sid st).sheets ↔ (s ∈ st.sheets ∧ s.id ≠ sid)) ∧
      (deleteSheetOp sid st).sheets.Sublist st.sheets) ∧
    (1 < st.sheets.length → (idsOf st).Nodup → st.activeSheetId = sid →
      (deleteSheetOp sid st).sheets ≠ [] ∧
      (deleteSheetOp sid st).activeSheetId =
        ((deleteSheetOp sid st).sheets.headD emptySheet).id) ∧
    (st.activeSheetId ≠ sid → (deleteSheetOp sid st).activeSheetId = st.activeSheetId) := by
  refine ⟨?_, ?_, ?_, ?_⟩
  · intro hlen
    rw [deleteSheetOp, if_pos hlen]
  · intro hlen
    have hsheets : (deleteSheetOp sid st).sheets = st.sheets.filter (fun s => s.id != sid) := by
      rw [deleteSheetOp, if_neg hlen, sheetSwitchEffect_sheets]
    constructor
    · intro s
      rw [hsheets, List.mem_filter]
      simp [bne_iff_ne]
    · rw [hsheets]
      exact List.filter_sublist _
  · intro hlen hnodup hA
    have hne : st.sheets.filter (fun s => s.id != sid) ≠ [] := by
      intro hE
      have hall : ∀ s ∈ st.sheets, s.id = sid := by
        intro s hs
        by_contra hneq
        have hmem : s ∈ st.sheets.filter (fun s => s.id != sid) :=
          List.mem_filter.mpr ⟨hs, by simp [hneq]⟩
        rw [hE] at hmem
        exact absurd hmem (List.not_mem_nil s)
      have hall' : ∀ x ∈ st.sheets.map Sheet.id, x = sid := by
        intro x hx
        rcases List.mem_map.mp hx with ⟨s, hs, rfl⟩
        exact hall s hs
      have hlen2 : 2 ≤ (st.sheets.map Sheet.id).length := by
        rw [List.length_map]
        omega
      unfold idsOf at hnodup
      generalize hG : st.sheets.map Sheet.id = l at hnodup hall' hlen2
      rcases l with _ | ⟨a, l2⟩
      · simp at hlen2
      rcases l2 with _ | ⟨b, t2⟩
      · simp at hlen2
      have hanotin : a ∉ b :: t2 := (List.nodup_cons.mp hnodup).1
      have ha : a = sid := hall' a (List.mem_cons_self _ _)
      have hb : b = sid := hall' b (List.mem_cons_of_mem _ (List.mem_cons_self _ _))
      exact hanotin (by rw [ha, ← hb]; exact List.mem_cons_self _ _)
    have hlen1 : st.sheets.length ≠ 1 := by omega
    constructor
    · rw [deleteSheetOp, if_neg hlen1, sheetSwitchEffect_sheets]
      exact hne
    · rw [deleteSheetOp, if_neg hlen1, sheetSwitchEffect_activeSheetId, sheetSwitchEffect_sheets]
      simp only [if_pos hA]
  · intro hA
    by_cases hlen : st.sheets.length = 1
    · rw [deleteSheetOp, if_pos hlen]
    · rw [deleteSheetOp, if_neg hlen, sheetSwitchEffect_activeSheetId]
      simp only [if_neg hA]

theorem deleteSheet_spec_witness :
    (deleteSheetOp "1" twoSheetState).sheets ≠ [] ∧
    (deleteSheetOp "1" twoSheetState).activeSheetId =
      ((deleteSheetOp "1" twoSheetState).sheets.headD emptySheet).id :=
  (deleteSheet_spec twoSheetState "1").2.2.1 (by decide) (by decide) rfl

/-- C3 counterexample: `addNewSheet` takes its id from
`Date.now().toString()` without checking it against the ids already
present, so two creations whose clock readings coincide (same
millisecond) yield duplicate sheet ids: after
`create "99"; create "99"` from the initial collection the id list is
`["1", "99", "99"]`, which is not pairwise distinct. -/
theorem sheet_ids_counterexample :
    idsOf (applyOps [SheetOp.create "99", SheetOp.create "99"] initialState) =
      ["1", "99", "99"] ∧
    ¬ (idsOf (applyOps [SheetOp.create "99", SheetOp.create "99"] initialState)).Nodup := by
  decide

/-- C3 amended: provided every id the clock hands to `createSheet` is
fresh — different from every id present in the collection at that moment —
any sequence of `createSheet`/`deleteSheet`/`renameSheet` operations
starting from a collection with pairwise-distinct sheet ids keeps the
sheet ids pairwise distinct. -/
theorem sheet_ids_distinct (ops : List SheetOp) (st : GridState)
    (hN : (idsOf st).Nodup) (hF : FreshOps st ops) :
    (idsOf (applyOps ops st)).Nodup := by
  induction ops generalizing st with
  | nil => exact hN
  | cons op rest ih =>
    obtain ⟨hop, hrest⟩ := hF
    refine ih (applyOp op st) ?_ hrest
    cases op with
    | create nid =>
      have hfresh : nid ∉ idsOf st := hop nid rfl
      show (idsOf (addNewSheet nid st)).Nodup
      rw [idsOf_addNewSheet]
      refine List.Nodup.append hN (List.nodup_singleton nid) ?_
      intro a ha hb
      rw [List.mem_singleton] at hb
      rw [hb] at ha
      exact hfresh ha
    | delete sid => exact (idsOf_deleteSheetOp_sublist sid st).nodup hN
    | rename sid nm =>
      show (idsOf (renameSheetOp sid nm st)).Nodup
      rw [idsOf_renameSheetOp]
      exact hN

theorem sheet_ids_distinct_witness :
    (idsOf (applyOps [SheetOp.create "77", SheetOp.create "78"] initialState)).Nodup := by
  refine sheet_ids_distinct [SheetOp.create "77", SheetOp.create "78"] initialState (by decide) ?_
  refine ⟨?_, ?_, trivial⟩
  · intro nid h
    cases h
    decide
  · intro nid h
    cases h
    decide

/-- C5 counterexample: a column drag starting from the default width 96
whose requested size is `startSize - 50` stores `max(20, 96 - 50) = 46`,
not the minimum 20 — the claim's "in particular" example only holds when
the requested size is actually below the minimum. -/
theorem resize_floor_counterexample :
    lookupA (activeSheet (handleMouseMove 50 0
      (handleResizeStart ResizeType.column (Sum.inl "A") 100 0 initialState))).columnWidths "A" =
      some 46 ∧ (46 : Int) ≠ MIN_COLUMN_WIDTH := by decide

/-- C5 amended: the size written by a resize move is
`max(minimum, startSize + (coordinate - startCoordinate))`, so the
stored-override invariant (every column width ≥ 20, every row height ≥ 15)
is preserved; a request at or below the minimum stores exactly the
minimum; and any request at or above the minimum is stored verbatim, so no
maximum is enforced. -/
theorem resize_floor (st : GridState) (x y : Int) :
    (SizesOK st.sheets → SizesOK (handleMouseMove x y st).sheets) ∧
    (∀ c, st.isResizing = true → st.resizingType = some ResizeType.column →
      st.resizingIndex = some (Sum.inl c) →
      (st.sheets.find? (fun s => s.id == st.activeSheetId)).isSome →
      lookupA (activeSheet (handleMouseMove x y st)).columnWidths c =
        some (max MIN_COLUMN_WIDTH (st.resizeStartSize + (x - st.resizeStartPos))) ∧
      (st.resizeStartSize + (x - st.resizeStartPos) ≤ MIN_COLUMN_WIDTH →
        lookupA (activeSheet (handleMouseMove x y st)).columnWidths c =
          some MIN_COLUMN_WIDTH) ∧
      (MIN_COLUMN_WIDTH ≤ st.resizeStartSize + (x - st.resizeStartPos) →
        lookupA (activeSheet (handleMouseMove x y st)).columnWidths c =
          some (st.resizeStartSize + (x - st.resizeStartPos)))) ∧
    (∀ r, st.isResizing = true → st.resizingType = some ResizeType.row →
      st.resizingIndex = some (Sum.inr r) →
      (st.sheets.find? (fun s => s.id == st.activeSheetId)).isSome →
      lookupA (activeSheet (handleMouseMove x y st)).rowHeights r =
        some (max MIN_ROW_HEIGHT (st.resizeStartSize + (y - st.resizeStartPos))) ∧
      (st.resizeStartSize + (y - st.resizeStartPos) ≤ MIN_ROW_HEIGHT →
        lookupA (activeSheet (handleMouseMove x y st)).rowHeights r = some MIN_ROW_HEIGHT) ∧
      (MIN_ROW_HEIGHT ≤ st.resizeStartSize + (y - st.resizeStartPos) →
        lookupA (activeSheet (handleMouseMove x y st)).rowHeights r =
          some (st.resizeStartSize + (y - st.resizeStartPos)))) := by
  refine ⟨?_, ?_, ?_⟩
  · intro hOK
    by_cases hR : st.isResizing = false
    · simp only [handleMouseMove, if_pos hR]
      exact hOK
    · cases hT : st.resizingType with
      | none =>
        simp only [handleMouseMove, if_neg hR, hT]
        exact hOK
      | some rt =>
        cases hI : st.resizingIndex with
        | none =>
          simp only [handleMouseMove, if_neg hR, hT, hI]
          exact hOK
        | some idx =>
          cases rt with
          | column =>
            simp only [handleMouseMove, if_neg hR, hT, hI]
            refine SizesOK_updateDims st _ _ ?_ ?_ hOK
            · intro m hm p hp
              cases hm
              rcases List.mem_singleton.mp hp with rfl
              exact le_max_left _ _
            · intro m hm
              cases hm
          | row =>
            cases idx with
            | inl s =>
              simp only [handleMouseMove, if_neg hR, hT, hI]
              exact hOK
            | inr r =>
              simp only [handleMouseMove, if_neg hR, hT, hI]
              refine SizesOK_updateDims st _ _ ?_ ?_ hOK
              · intro m hm
                cases hm
              · intro m hm p hp
                cases hm
                rcases List.mem_singleton.mp hp with rfl
                exact le_max_left _ _
  · intro c hR hT hI hact
    have h1 : lookupA (activeSheet (handleMouseMove x y st)).columnWidths c =
        some (max MIN_COLUMN_WIDTH (st.resizeStartSize + (x - st.resizeStartPos))) := by
      rw [handleMouseMove_col st c x y hR hT hI, activeSheet_updateDims _ _ _ hact]
      show lookupA (mergeA (activeSheet st).columnWidths [(c, _)]) c = _
      rw [mergeA_single]
      exact lookupA_insertA_self _ _ _
    refine ⟨h1, fun hle => ?_, fun hge => ?_⟩
    · rw [h1, max_eq_left hle]
    · rw [h1, max_eq_right hge]
  · intro r hR hT hI hact
    have h1 : lookupA (activeSheet (handleMouseMove x y st)).rowHeights r =
        some (max MIN_ROW_HEIGHT (st.resizeStartSize + (y - st.resizeStartPos))) := by
      rw [handleMouseMove_row st r x y hR hT hI, activeSheet_updateDims _ _ _ hact]
      show lookupA (mergeA (activeSheet st).rowHeights [(r, _)]) r = _
      rw [mergeA_single]
      exact lookupA_insertA_self _ _ _
    refine ⟨h1, fun hle => ?_, fun hge => ?_⟩
    · rw [h1, max_eq_left hle]
    · rw [h1, max_eq_right hge]

theorem resize_floor_witness :
    lookupA (activeSheet (handleMouseMove 20 0
      (handleResizeStart ResizeType.column (Sum.inl "A") 100 0 initialState))).columnWidths "A" =
      some MIN_COLUMN_WIDTH :=
  ((resize_floor (handleResizeStart ResizeType.column (Sum.inl "A") 100 0 initialState) 20 0).2.1
    "A" rfl rfl rfl (by decide)).2.1 (by decide)

/-- C4: a directional key (Enter, Tab or an arrow) pressed while editing
the cell at `(row, col)` commits the pending draft first (the store then
holds the draft at that cell); when the destination index is inside the
50-by-26 grid the destination cell becomes the selected and editing cell,
and when it is outside the selection stays on the current cell with the
edit session closed. -/
theorem keydown_navigation (st : GridState) (key : String) (row col : Nat)
    (hkey : key ∈ keyList) (hrow : row < 50) (hcol : col < 26)
    (hsel : st.selectedCell = some (getCellId row col))
    (hedit : st.editingCell = some (getCellId row col))
    (hact : (st.sheets.find? (fun s => s.id == st.activeSheetId)).isSome) :
    getCellOf (handleKeyDown key row col st).sheets st.activeSheetId (getCellId row col) =
      st.cellValue ∧
    (inBounds (moveDest key row col) →
      (handleKeyDown key row col st).selectedCell =
        some (getCellId (moveDest key row col).1.toNat (moveDest key row col).2.toNat) ∧
      (handleKeyDown key row col st).editingCell =
        some (getCellId (moveDest key row col).1.toNat (moveDest key row col).2.toNat)) ∧
    (¬ inBounds (moveDest key row col) →
      (handleKeyDown key row col st).selectedCell = st.selectedCell ∧
      (handleKeyDown key row col st).editingCell = none) := by
  have hc : getCellId row col ≠ "" := getCellId_ne_empty row col hcol
  have hblur : (handleCellBlur st).sheets =
      setCell st.sheets st.activeSheetId (getCellId row col) st.cellValue :=
    handleCellBlur_sheets_of_editing st _ hsel hedit hc
  have hCL : COLUMNS.length = 26 := by decide
  refine ⟨?_, ?_, ?_⟩
  · rw [handleKeyDown_sheets key row col st hkey, hblur]
    exact getCellOf_setCell_self _ _ hact
  · intro hin
    simp only [keyList, List.mem_cons, List.not_mem_nil, or_false] at hkey
    rcases hkey with rfl | rfl | rfl | rfl | rfl | rfl
    · have hd : moveDest "Enter" row col = ((row : Int) + 1, (col : Int)) := rfl
      rw [hd] at hin ⊢
      unfold inBounds at hin
      obtain ⟨h1, h2, h3, h4⟩ := hin
      have h2' : (row : Int) + 1 < 50 := h2
      have hsrc : row < ROWS - 1 := by
        show row < 50 - 1
        omega
      have heq : handleKeyDown "Enter" row col st =
          handleCellClick (row + 1) col (handleCellBlur st) := by
        show (if row < ROWS - 1 then handleCellClick (row + 1) col (handleCellBlur st)
          else handleCellBlur st) = _
        rw [if_pos hsrc]
      have e1 : (((row : Int) + 1, (col : Int)).1).toNat = row + 1 := by
        show ((row : Int) + 1).toNat = row + 1
        omega
      have e2 : (((row : Int) + 1, (col : Int)).2).toNat = col := by
        show ((col : Int)).toNat = col
        omega
      rw [heq, e1, e2]
      exact ⟨rfl, rfl⟩
    · have hd : moveDest "Tab" row col = ((row : Int), (col : Int) + 1) := rfl
      rw [hd] at hin ⊢
      unfold inBounds at hin
      obtain ⟨h1, h2, h3, h4⟩ := hin
      have h4' : (col : Int) + 1 < 26 := h4
      have hsrc : col < COLUMNS.length - 1 := by
        rw [hCL]
        omega
      have heq : handleKeyDown "Tab" row col st =
          handleCellClick row (col + 1) (handleCellBlur st) := by
        show (if col < COLUMNS.length - 1 then handleCellClick row (col + 1) (handleCellBlur st)
          else handleCellBlur st) = _
        rw [if_pos hsrc]
      have e1 : (((row : Int), (col : Int) + 1).1).toNat = row := by
        show ((row : Int)).toNat = row
        omega
      have e2 : (((row : Int), (col : Int) + 1).2).toNat = col + 1 := by
        show ((col : Int) + 1).toNat = col + 1
        omega
      rw [heq, e1, e2]
      exact ⟨rfl, rfl⟩
    · have hd : moveDest "ArrowDown" row col = ((row : Int) + 1, (col : Int)) := rfl
      rw [hd] at hin ⊢
      unfold inBounds at hin
      obtain ⟨h1, h2, h3, h4⟩ := hin
      have h2' : (row : Int) + 1 < 50 := h2
      have hsrc : row < ROWS - 1 := by
        show row < 50 - 1
        omega
      have heq : handleKeyDown "ArrowDown" row col st =
          handleCellClick (row + 1) col (handleCellBlur st) := by
        show (if row < ROWS - 1 then handleCellClick (row + 1) col (handleCellBlur st)
          else handleCellBlur st) = _
        rw [if_pos hsrc]
      have e1 : (((row : Int) + 1, (col : Int)).1).toNat = row + 1 := by
        show ((row : Int) + 1).toNat = row + 1
        omega
      have e2 : (((row : Int) + 1, (col : Int)).2).toNat = col := by
        show ((col : Int)).toNat = col
        omega
      rw [heq, e1, e2]
      exact ⟨rfl, rfl⟩
    · have hd : moveDest "ArrowUp" row col = ((row : Int) - 1, (col : Int)) := rfl
      rw [hd] at hin ⊢
      unfold inBounds at hin
      obtain ⟨h1, h2, h3, h4⟩ := hin
      have h1' : (0 : Int) ≤ (row : Int) - 1 := h1
      have hsrc : row > 0 := by omega
      have heq : handleKeyDown "ArrowUp" row col st =
          handleCellClick (row - 1) col (handleCellBlur st) := by
        show (if row > 0 then handleCellClick (row - 1) col (handleCellBlur st)
          else handleCellBlur st) = _
        rw [if_pos hsrc]
      have e1 : (((row : Int) - 1, (col : Int)).1).toNat = row - 1 := by
        show ((row : Int) - 1).toNat = row - 1
        omega
      have e2 : (((row : Int) - 1, (col : Int)).2).toNat = col := by
        show ((col : Int)).toNat = col
        omega
      rw [heq, e1, e2]
      exact ⟨rfl, rfl⟩
    · have hd : moveDest "ArrowLeft" row col = ((row : Int), (col : Int) - 1) := rfl
      rw [hd] at hin ⊢
      unfold inBounds at hin
      obtain ⟨h1, h2, h3, h4⟩ := hin
      have h3' : (0 : Int) ≤ (col : Int) - 1 := h3
      have hsrc : col > 0 := by omega
      have heq : handleKeyDown "ArrowLeft" row col st =
          handleCellClick row (col - 1) (handleCellBlur st) := by
        show (if col > 0 then handleCellClick row (col - 1) (handleCellBlur st)
          else handleCellBlur st) = _
        rw [if_pos hsrc]
      have e1 : (((row : Int), (col : Int) - 1).1).toNat = row := by
        show ((row : Int)).toNat = row
        omega
      have e2 : (((row : Int), (col : Int) - 1).2).toNat = col - 1 := by
        show ((col : Int) - 1).toNat = col - 1
        omega
      rw [heq, e1, e2]
      exact ⟨rfl, rfl⟩
    · have hd : moveDest "ArrowRight" row col = ((row : Int), (col : Int) + 1) := rfl
      rw [hd] at hin ⊢
      unfold inBounds at hin
      obtain ⟨h1, h2, h3, h4⟩ := hin
      have h4' : (col : Int) + 1 < 26 := h4
      have hsrc : col < COLUMNS.length - 1 := by
        rw [hCL]
        omega
      have heq : handleKeyDown "ArrowRight" row col st =
          handleCellClick row (col + 1) (handleCellBlur st) := by
        show (if col < COLUMNS.length - 1 then handleCellClick row (col + 1) (handleCellBlur st)
          else handleCellBlur st) = _
        rw [if_pos hsrc]
      have e1 : (((row : Int), (col : Int) + 1).1).toNat = row := by
        show ((row : Int)).toNat = row
        omega
      have e2 : (((row : Int), (col : Int) + 1).2).toNat = col + 1 := by
        show ((col : Int) + 1).toNat = col + 1
        omega
      rw [heq, e1, e2]
      exact ⟨rfl, rfl⟩
  · intro hout
    simp only [keyList, List.mem_cons, List.not_mem_nil, or_false] at hkey
    rcases hkey with rfl | rfl | rfl | rfl | rfl | rfl
    · have hd : moveDest "Enter" row col = ((row : Int) + 1, (col : Int)) := rfl
      rw [hd] at hout
      have hsrc : ¬ (row < ROWS - 1) := by
        intro hlt
        apply hout
        have hlt' : row < 50 - 1 := hlt
        unfold inBounds
        refine ⟨?_, ?_, ?_, ?_⟩
        · show (0 : Int) ≤ (row : Int) + 1
          omega
        · show (row : Int) + 1 < 50
          omega
        · show (0 : Int) ≤ (col : Int)
          omega
        · show (col : Int) < 26
          omega
      have heq : handleKeyDown "Enter" row col st = handleCellBlur st := by
        show (if row < ROWS - 1 then handleCellClick (row + 1) col (handleCellBlur st)
          else handleCellBlur st) = _
        rw [if_neg hsrc]
      rw [heq]
      exact ⟨rfl, rfl⟩
    · have hd : moveDest "Tab" row col = ((row : Int), (col : Int) + 1) := rfl
      rw [hd] at hout
      have hsrc : ¬ (col < COLUMNS.length - 1) := by
        intro hlt
        apply hout
        rw [hCL] at hlt
        unfold inBounds
        refine ⟨?_, ?_, ?_, ?_⟩
        · show (0 : Int) ≤ (row : Int)
          omega
        · show (row : Int) < 50
          omega
        · show (0 : Int) ≤ (col : Int) + 1
          omega
        · show (col : Int) + 1 < 26
          omega
      have heq : handleKeyDown "Tab" row col st = handleCellBlur st := by
        show (if col < COLUMNS.length - 1 then handleCellClick row (col + 1) (handleCellBlur st)
          else handleCellBlur st) = _
        rw [if_neg hsrc]
      rw [heq]
      exact ⟨rfl, rfl⟩
    · have hd : moveDest "ArrowDown" row col = ((row : Int) + 1, (col : Int)) := rfl
      rw [hd] at hout
      have hsrc : ¬ (row < ROWS - 1) := by
        intro hlt
        apply hout
        have hlt' : row < 50 - 1 := hlt
        unfold inBounds
        refine ⟨?_, ?_, ?_, ?_⟩
        · show (0 : Int) ≤ (row : Int) + 1
          omega
        · show (row : Int) + 1 < 50
          omega
        · show (0 : Int) ≤ (col : Int)
          omega
        · show (col : Int) < 26
          omega
      have heq : handleKeyDown "ArrowDown" row col st = handleCellBlur st := by
        show (if row < ROWS - 1 then handleCellClick (row + 1) col (handleCellBlur st)
          else handleCellBlur st) = _
        rw [if_neg hsrc]
      rw [heq]
      exact ⟨rfl, rfl⟩
    · have hd : moveDest "ArrowUp" row col = ((row : Int) - 1, (col : Int)) := rfl
      rw [hd] at hout
      have hsrc : ¬ (row > 0) := by
        intro hlt
        apply hout
        unfold inBounds
        refine ⟨?_, ?_, ?_, ?_⟩
        · show (0 : Int) ≤ (row : Int) - 1
          omega
        · show (row : Int) - 1 < 50
          omega
        · show (0 : Int) ≤ (col : Int)
          omega
        · show (col : Int) < 26
          omega
      have heq : handleKeyDown "ArrowUp" row col st = handleCellBlur st := by
        show (if row > 0 then handleCellClick (row - 1) col (handleCellBlur st)
          else handleCellBlur st) = _
        rw [if_neg hsrc]
      rw [heq]
      exact ⟨rfl, rfl⟩
    · have hd : moveDest "ArrowLeft" row col = ((row : Int), (col : Int) - 1) := rfl
      rw [hd] at hout
      have hsrc : ¬ (col > 0) := by
        intro hlt
        apply hout
        unfold inBounds
        refine ⟨?_, ?_, ?_, ?_⟩
        · show (0 : Int) ≤ (row : Int)
          omega
        · show (row : Int) < 50
          omega
        · show (0 : Int) ≤ (col : Int) - 1
          omega
        · show (col : Int) - 1 < 26
          omega
      have heq : handleKeyDown "ArrowLeft" row col st = handleCellBlur st := by
        show (if col > 0 then handleCellClick row (col - 1) (handleCellBlur st)
          else handleCellBlur st) = _
        rw [if_neg hsrc]
      rw [heq]
      exact ⟨rfl, rfl⟩
    · have hd : moveDest "ArrowRight" row col = ((row : Int), (col : Int) + 1) := rfl
      rw [hd] at hout
      have hsrc : ¬ (col < COLUMNS.length - 1) := by
        intro hlt
        apply hout
        rw [hCL] at hlt
        unfold inBounds
        refine ⟨?_, ?_, ?_, ?_⟩
        · show (0 : Int) ≤ (row : Int)
          omega
        · show (row : Int) < 50
          omega
        · show (0 : Int) ≤ (col : Int) + 1
          omega
        · show (col : Int) + 1 < 26
          omega
      have heq : handleKeyDown "ArrowRight" row col st = handleCellBlur st := by
        show (if col < COLUMNS.length - 1 then handleCellClick row (col + 1) (handleCellBlur st)
          else handleCellBlur st) = _
        rw [if_neg hsrc]
      rw [heq]
      exact ⟨rfl, rfl⟩

theorem keydown_navigation_witness :
    getCellOf (handleKeyDown "ArrowUp" 0 0
      (handleCellChange "7" (handleCellClick 0 0 initialState))).sheets "1" "A1" = "7" ∧
    (handleKeyDown "ArrowUp" 0 0
      (handleCellChange "7" (handleCellClick 0 0 initialState))).selectedCell = some "A1" :=
  ⟨(keydown_navigation (handleCellChange "7" (handleCellClick 0 0 initialState)) "ArrowUp" 0 0
      (by decide) (by decide) (by decide) rfl rfl (by decide)).1,
   ((keydown_navigation (handleCellChange "7" (handleCellClick 0 0 initialState)) "ArrowUp" 0 0
      (by decide) (by decide) (by decide) rfl rfl (by decide)).2.2 (by decide)).1⟩

end Excel

